import Mathlib

/-!
Verification of the guardrail MCP server (src/server.py).

The server is a thin shim over the AWS Bedrock guardrail API.  We shallowly
embed its Python values as `PyVal` (Python `None`, booleans, ints, strings,
lists and string-keyed dicts), the `_filter_none` normalizer, and the six
operation bodies.  Each operation is modelled as a function of the backend
outcome: `Except ClientError r` stands for the boto3 call either returning a
response `r` or raising a `botocore.exceptions.ClientError` (the only failure
kind the source catches), so the `try/except ClientError` boundary becomes a
`match` on the `Except`.
-/

set_option autoImplicit false

/-- A `botocore.exceptions.ClientError`, abstracted to its message string. -/
abbrev ClientError := String

mutual

/-- A Python value as used by server.py: `None`, `bool`, `int`, `str`,
`list`, or a string-keyed `dict` (insertion-ordered). -/
inductive PyVal : Type where
  | vNone : PyVal
  | vBool : Bool → PyVal
  | vInt : Int → PyVal
  | vStr : String → PyVal
  | vList : PyList → PyVal
  | vDict : PyDict → PyVal

/-- A Python list of `PyVal`s. -/
inductive PyList : Type where
  | nil : PyList
  | cons : PyVal → PyList → PyList

/-- A Python dict with string keys, kept in insertion order. -/
inductive PyDict : Type where
  | dnil : PyDict
  | dcons : String → PyVal → PyDict → PyDict

end

/-- `v is None` in Python. -/
def PyVal.isNone : PyVal → Bool
  | .vNone => true
  | _ => false

/-- Entries of a dict as a Lean list, for specification purposes. -/
def PyDict.entries : PyDict → List (String × PyVal)
  | .dnil => []
  | .dcons k v d => (k, v) :: d.entries

/-- Elements of a Python list as a Lean list, for specification purposes. -/
def PyList.elems : PyList → List PyVal
  | .nil => []
  | .cons x xs => x :: xs.elems

/-- The keys of a dict, in insertion order. -/
def dictKeys : PyDict → List String
  | .dnil => []
  | .dcons k _ d => k :: dictKeys d

/-- The keys of a dict whose value is not `None`, in insertion order. -/
def nonNoneKeys : PyDict → List String
  | .dnil => []
  | .dcons k v d => if v.isNone then nonNoneKeys d else k :: nonNoneKeys d

/-- `d.get(key)` returning `Option`: `some v` if the key is present. -/
def dictLookup : PyDict → String → Option PyVal
  | .dnil, _ => none
  | .dcons k v d, key => if k = key then some v else dictLookup d key

/-- Python `d.get(key)` (default `None`). -/
def pyDictGet (d : PyDict) (key : String) : PyVal :=
  match dictLookup d key with
  | some v => v
  | none => .vNone

mutual

/-- `_filter_none` of server.py: recursively remove `None` values from
dicts and lists; scalars pass through unchanged. -/
def filterNone : PyVal → PyVal
  | .vNone => .vNone
  | .vBool b => .vBool b
  | .vInt n => .vInt n
  | .vStr s => .vStr s
  | .vList xs => .vList (filterNoneL xs)
  | .vDict d => .vDict (filterNoneD d)

/-- The list comprehension `[_filter_none(x) for x in d if x is not None]`. -/
def filterNoneL : PyList → PyList
  | .nil => .nil
  | .cons x xs => if x.isNone then filterNoneL xs else .cons (filterNone x) (filterNoneL xs)

/-- The dict comprehension
`{k: _filter_none(v) for k, v in d.items() if v is not None}`. -/
def filterNoneD : PyDict → PyDict
  | .dnil => .dnil
  | .dcons k v d => if v.isNone then filterNoneD d else .dcons k (filterNone v) (filterNoneD d)

end

/-- Python truthiness (`if not g:`) for the values server.py tests. -/
def pyTruthy : PyVal → Bool
  | .vNone => false
  | .vBool b => b
  | .vInt n => !(n == 0)
  | .vStr s => !s.isEmpty
  | .vList .nil => false
  | .vList (.cons _ _) => true
  | .vDict .dnil => false
  | .vDict (.dcons _ _ _) => true

/-- The process environment as server.py reads it: `os.environ.get` of the
four AWS variables (`none` = variable unset). -/
structure Env where
  aws_access_key_id : Option String
  aws_secret_access_key : Option String
  aws_session_token : Option String
  aws_region : Option String

/-- Python truthiness of an `os.environ.get` result: unset and the empty
string are falsy. -/
def truthyStr : Option String → Bool
  | none => false
  | some s => !s.isEmpty

/-- The `boto3_kwargs` dict built at module load (server.py lines 22-27):
always `region_name` (defaulting to `"us-east-1"`); the static key pair only
when both are truthy; the session token only additionally and when truthy. -/
def boto3_kwargs (env : Env) : List (String × String) :=
  let base := [("region_name", env.aws_region.getD "us-east-1")]
  match env.aws_access_key_id, env.aws_secret_access_key with
  | some ak, some sk =>
    if ak.isEmpty || sk.isEmpty then base
    else
      let withKeys := base ++ [("aws_access_key_id", ak), ("aws_secret_access_key", sk)]
      match env.aws_session_token with
      | some tok => if tok.isEmpty then withKeys else withKeys ++ [("aws_session_token", tok)]
      | none => withKeys
  | _, _ => base

/-- One page yielded by the `list_guardrails` paginator: a response dict,
abstracted to its `guardrailSummaries` entry (`none` = key absent). -/
structure Page where
  guardrailSummaries : Option (List PyVal)

/-- `page.get("guardrailSummaries", [])`. -/
def pageSummaries (p : Page) : List PyVal :=
  p.guardrailSummaries.getD []

/-- The loop body of `list_guardrails`: `guardrails = []` then
`guardrails.extend(page.get("guardrailSummaries", []))` per page. -/
def listLoop : List Page → List PyVal → List PyVal
  | [], acc => acc
  | p :: ps, acc => listLoop ps (acc ++ pageSummaries p)

/-- `list_guardrails` (server.py lines 40-51), as a function of the backend
outcome: the pages the paginator yields, or the `ClientError` it raises. -/
def list_guardrails : Except ClientError (List Page) → List PyVal
  | .ok pages => listLoop pages []
  | .error _ => []

/-- `get_guardrail` (server.py lines 53-61), as a function of the outcome of
`bedrock.get_guardrail`: returns `response.get("guardrail")` on success
(`None` when the key is absent), `None` on `ClientError`. -/
def get_guardrail : Except ClientError PyDict → PyVal
  | .ok response => pyDictGet response "guardrail"
  | .error _ => .vNone

/-- `delete_guardrail` (server.py lines 172-180): `True` when the backend
call returns, `False` on `ClientError`. -/
def delete_guardrail : Except ClientError PyDict → Bool
  | .ok _ => true
  | .error _ => false

mutual

/-- No dict entry and no list element anywhere inside `v` is `None`. -/
def noNoneWithin : PyVal → Bool
  | .vNone => true
  | .vBool _ => true
  | .vInt _ => true
  | .vStr _ => true
  | .vList xs => noNoneWithinL xs
  | .vDict d => noNoneWithinD d

/-- No element of the list (recursively) is `None`. -/
def noNoneWithinL : PyList → Bool
  | .nil => true
  | .cons x xs => !x.isNone && noNoneWithin x && noNoneWithinL xs

/-- No value of the dict (recursively) is `None`. -/
def noNoneWithinD : PyDict → Bool
  | .dnil => true
  | .dcons _ v d => !v.isNone && noNoneWithin v && noNoneWithinD d

end

/-- An optional Python argument injected into a dict literal: `None` when the
caller omitted it. -/
def optVal {α : Type} (f : α → PyVal) : Option α → PyVal
  | none => .vNone
  | some x => f x

/-- The arguments of `create_guardrail_full`: three required strings, the
rest optional (defaulting to `None`). -/
structure CreateArgs where
  name : String
  blocked_input_messaging : String
  blocked_outputs_messaging : String
  description : Option String
  content_policy_config : Option PyDict
  contextual_grounding_policy_config : Option PyDict
  cross_region_config : Option PyDict
  kms_key_arn : Option String
  sensitive_information_policy_config : Option PyDict
  tags : Option PyList
  topic_policy_config : Option PyDict
  word_policy_config : Option PyDict

/-- The dict literal passed to `_filter_none` in `create_guardrail_full`
(server.py lines 80-93), in source order. -/
def rawCreatePayload (a : CreateArgs) : PyDict :=
  .dcons "name" (.vStr a.name)
  (.dcons "blockedInputMessaging" (.vStr a.blocked_input_messaging)
  (.dcons "blockedOutputsMessaging" (.vStr a.blocked_outputs_messaging)
  (.dcons "description" (optVal .vStr a.description)
  (.dcons "contentPolicyConfig" (optVal .vDict a.content_policy_config)
  (.dcons "contextualGroundingPolicyConfig" (optVal .vDict a.contextual_grounding_policy_config)
  (.dcons "crossRegionConfig" (optVal .vDict a.cross_region_config)
  (.dcons "kmsKeyId" (optVal .vStr a.kms_key_arn)
  (.dcons "sensitiveInformationPolicyConfig" (optVal .vDict a.sensitive_information_policy_config)
  (.dcons "tags" (optVal .vList a.tags)
  (.dcons "topicPolicyConfig" (optVal .vDict a.topic_policy_config)
  (.dcons "wordPolicyConfig" (optVal .vDict a.word_policy_config)
  .dnil)))))))))))

/-- The payload `create_guardrail_full` sends: `_filter_none` of the literal. -/
def createPayload (a : CreateArgs) : PyDict :=
  filterNoneD (rawCreatePayload a)

/-- `create_guardrail_full` (server.py lines 63-98), as a function of the
backend: `bedrock.create_guardrail(**payload)` is modelled as a function of
the payload that either returns a response dict or raises `ClientError`.
Returns the response on success, `{"error": str(e)}` on `ClientError`. -/
def create_guardrail_full (a : CreateArgs) (backend : PyDict → Except ClientError PyDict) : PyDict :=
  match backend (createPayload a) with
  | .ok response => response
  | .error e => .dcons "error" (.vStr e) .dnil

/-- The arguments of `update_guardrail_full`: the identifier is required,
every configuration field optional. -/
structure UpdateArgs where
  guardrail_id : String
  name : Option String
  blocked_input_messaging : Option String
  blocked_outputs_messaging : Option String
  description : Option String
  content_policy_config : Option PyDict
  contextual_grounding_policy_config : Option PyDict
  cross_region_config : Option PyDict
  kms_key_arn : Option String
  sensitive_information_policy_config : Option PyDict
  tags : Option PyList
  topic_policy_config : Option PyDict
  word_policy_config : Option PyDict

/-- The dict literal passed to `_filter_none` in `update_guardrail_full`
(server.py lines 118-132), in source order. -/
def rawUpdatePayload (a : UpdateArgs) : PyDict :=
  .dcons "guardrailIdentifier" (.vStr a.guardrail_id)
  (.dcons "name" (optVal .vStr a.name)
  (.dcons "blockedInputMessaging" (optVal .vStr a.blocked_input_messaging)
  (.dcons "blockedOutputsMessaging" (optVal .vStr a.blocked_outputs_messaging)
  (.dcons "description" (optVal .vStr a.description)
  (.dcons "contentPolicyConfig" (optVal .vDict a.content_policy_config)
  (.dcons "contextualGroundingPolicyConfig" (optVal .vDict a.contextual_grounding_policy_config)
  (.dcons "crossRegionConfig" (optVal .vDict a.cross_region_config)
  (.dcons "kmsKeyId" (optVal .vStr a.kms_key_arn)
  (.dcons "sensitiveInformationPolicyConfig" (optVal .vDict a.sensitive_information_policy_config)
  (.dcons "tags" (optVal .vList a.tags)
  (.dcons "topicPolicyConfig" (optVal .vDict a.topic_policy_config)
  (.dcons "wordPolicyConfig" (optVal .vDict a.word_policy_config)
  .dnil))))))))))))

/-- The payload `update_guardrail_full` sends. -/
def updatePayload (a : UpdateArgs) : PyDict :=
  filterNoneD (rawUpdatePayload a)

/-- `update_guardrail_full` (server.py lines 100-137); same error policy as
create. -/
def update_guardrail_full (a : UpdateArgs) (backend : PyDict → Except ClientError PyDict) : PyDict :=
  match backend (updatePayload a) with
  | .ok response => response
  | .error e => .dcons "error" (.vStr e) .dnil

/-- `n` spaces, for JSON indentation. -/
def spaces (n : Nat) : String :=
  String.mk (List.replicate n ' ')

/-- A lower-case hexadecimal digit. -/
def hexDigit (n : Nat) : Char :=
  if n < 10 then Char.ofNat (48 + n) else Char.ofNat (87 + n)

/-- Four lower-case hex digits, as in Python's `\uXXXX` escapes. -/
def hex4 (n : Nat) : String :=
  String.mk [hexDigit (n / 4096 % 16), hexDigit (n / 256 % 16), hexDigit (n / 16 % 16), hexDigit (n % 16)]

/-- One character of Python `json.dumps` string output (`ensure_ascii` on):
escape the quote, the backslash, control characters and all non-ASCII. -/
def jsonEscChar (c : Char) : String :=
  if c = '"' then "\\\""
  else if c = '\\' then "\\\\"
  else if c = '\n' then "\\n"
  else if c = '\t' then "\\t"
  else if c = '\r' then "\\r"
  else if c = Char.ofNat 8 then "\\b"
  else if c = Char.ofNat 12 then "\\f"
  else if c.toNat < 32 then "\\u" ++ hex4 c.toNat
  else if c.toNat < 127 then String.mk [c]
  else if c.toNat ≤ 65535 then "\\u" ++ hex4 c.toNat
  else
    "\\u" ++ hex4 (55296 + (c.toNat - 65536) / 1024) ++
    "\\u" ++ hex4 (56320 + (c.toNat - 65536) % 1024)

/-- A Python `json.dumps` string literal. -/
def jsonQuote (s : String) : String :=
  "\"" ++ String.join (s.toList.map jsonEscChar) ++ "\""

mutual

/-- Python `json.dumps(v, indent=2)`, with `ind` the indentation level the
value's closing bracket sits at.  Item separator is `",\n"`, key separator
`": "`, exactly as Python produces them when `indent` is given. -/
def jsonDumps : PyVal → Nat → String
  | .vNone, _ => "null"
  | .vBool true, _ => "true"
  | .vBool false, _ => "false"
  | .vInt n, _ => toString n
  | .vStr s, _ => jsonQuote s
  | .vList .nil, _ => "[]"
  | .vList (.cons x xs), ind =>
      "[\n" ++ jsonItemsL (.cons x xs) (ind + 2) ++ "\n" ++ spaces ind ++ "]"
  | .vDict .dnil, _ => "\x7b\x7d"
  | .vDict (.dcons k v d), ind =>
      "\x7b\n" ++ jsonItemsD (.dcons k v d) (ind + 2) ++ "\n" ++ spaces ind ++ "\x7d"

/-- The `",\n"`-separated, indented items of a JSON array. -/
def jsonItemsL : PyList → Nat → String
  | .nil, _ => ""
  | .cons x .nil, ind => spaces ind ++ jsonDumps x ind
  | .cons x (.cons y ys), ind =>
      spaces ind ++ jsonDumps x ind ++ ",\n" ++ jsonItemsL (.cons y ys) ind

/-- The `",\n"`-separated, indented `"key": value` items of a JSON object. -/
def jsonItemsD : PyDict → Nat → String
  | .dnil, _ => ""
  | .dcons k v .dnil, ind => spaces ind ++ jsonQuote k ++ ": " ++ jsonDumps v ind
  | .dcons k v (.dcons k2 v2 d), ind =>
      spaces ind ++ jsonQuote k ++ ": " ++ jsonDumps v ind ++ ",\n" ++
      jsonItemsD (.dcons k2 v2 d) ind

end

/-- The dict under a truthy guardrail value.  server.py immediately calls
`g.get(...)` on it, so the model covers dict-shaped responses (a truthy
non-dict would raise a dynamic `AttributeError`, outside the `ClientError`
failure model the source handles). -/
def asDict : PyVal → PyDict
  | .vDict d => d
  | _ => .dnil

/-- The dict literal handed to `_filter_none` inside
`export_guardrail_to_terraform` (server.py lines 150-163): the fetched
configuration re-keyed to the CloudFormation field names, in source order. -/
def tfInnerProps (g : PyDict) : PyDict :=
  .dcons "Name" (pyDictGet g "name")
  (.dcons "Description" (pyDictGet g "description")
  (.dcons "BlockedInputMessaging" (pyDictGet g "blockedInputMessaging")
  (.dcons "BlockedOutputsMessaging" (pyDictGet g "blockedOutputsMessaging")
  (.dcons "ContentPolicyConfig" (pyDictGet g "contentPolicy")
  (.dcons "ContextualGroundingPolicyConfig" (pyDictGet g "contextualGroundingPolicy")
  (.dcons "CrossRegionConfig" (pyDictGet g "crossRegionConfig")
  (.dcons "KmsKeyArn" (pyDictGet g "kmsKeyArn")
  (.dcons "SensitiveInformationPolicyConfig" (pyDictGet g "sensitiveInformationPolicy")
  (.dcons "Tags" (pyDictGet g "tags")
  (.dcons "TopicPolicyConfig" (pyDictGet g "topicPolicy")
  (.dcons "WordPolicyConfig" (pyDictGet g "wordPolicy")
  .dnil)))))))))))

/-- The `tf_props` dict of server.py lines 148-164: fixed `Type`, and
`Properties` the normalizer-filtered re-keyed configuration. -/
def tfProps (g : PyDict) : PyDict :=
  .dcons "Type" (.vStr "AWS::Bedrock::Guardrail")
  (.dcons "Properties" (.vDict (filterNoneD (tfInnerProps g))) .dnil)

/-- The `tf_block` string of server.py line 166: resource header (note the
trailing space) followed by `json.dumps(tf_props, indent=2)`. -/
def tfBlock (tf_resource_name : String) (g : PyDict) : String :=
  "resource \"awscc_bedrock_guardrail\" \"" ++ tf_resource_name ++ "\" " ++
  jsonDumps (.vDict (tfProps g)) 0

/-- `export_guardrail_to_terraform` (server.py lines 139-170), as a function
of the outcome of `bedrock.get_guardrail`: `"Error: ..."` on `ClientError`,
the not-found message when `response.get("guardrail")` is falsy, otherwise
the terraform block. -/
def export_guardrail_to_terraform (backend : Except ClientError PyDict)
    (guardrail_id : String) (tf_resource_name : String) : String :=
  match backend with
  | .error e => "Error: " ++ e
  | .ok resp =>
    let g := pyDictGet resp "guardrail"
    if pyTruthy g then tfBlock tf_resource_name (asDict g)
    else "No guardrail found for id " ++ guardrail_id

/-- The spec's example fetched configuration:
`{name: "g1", blockedInputMessaging: "blocked-in", blockedOutputsMessaging: "blocked-out"}`. -/
def exampleG1 : PyDict :=
  .dcons "name" (.vStr "g1")
  (.dcons "blockedInputMessaging" (.vStr "blocked-in")
  (.dcons "blockedOutputsMessaging" (.vStr "blocked-out") .dnil))

/-- A successful `get_guardrail` response wrapping `exampleG1`. -/
def exampleResp1 : PyDict :=
  .dcons "guardrail" (.vDict exampleG1) .dnil

/-- A successful response whose `guardrail` field is present but an empty
dict (falsy but not `None`). -/
def respEmptyGuardrail : PyDict :=
  .dcons "guardrail" (.vDict .dnil) .dnil

/-- An environment with all four AWS variables set non-empty. -/
def envAllSet : Env :=
  ⟨some "AK", some "SK", some "TOK", some "eu-west-1"⟩

/-- Example create arguments: the three required fields plus a description. -/
def exampleCreateArgs : CreateArgs :=
  ⟨"gx", "bi", "bo", some "desc", none, none, none, none, none, none, none, none⟩

/-- The spec's pagination example: three pages of 2, 2 and 1 summaries. -/
def examplePages : List Page :=
  [⟨some [.vStr "s1", .vStr "s2"]⟩, ⟨some [.vStr "s3", .vStr "s4"]⟩, ⟨some [.vStr "s5"]⟩]


/-! ## Helper lemmas about the normalizer -/

theorem isNone_filterNone (v : PyVal) : (filterNone v).isNone = v.isNone := by
  cases v <;> rfl

mutual

theorem noNoneWithin_filterNone : ∀ v : PyVal, noNoneWithin (filterNone v) = true
  | .vNone => rfl
  | .vBool _ => rfl
  | .vInt _ => rfl
  | .vStr _ => rfl
  | .vList xs => noNoneWithinL_filterNoneL xs
  | .vDict d => noNoneWithinD_filterNoneD d

theorem noNoneWithinL_filterNoneL : ∀ xs : PyList, noNoneWithinL (filterNoneL xs) = true
  | .nil => rfl
  | .cons x xs => by
      cases hx : x.isNone with
      | true => simp [filterNoneL, hx, noNoneWithinL_filterNoneL xs]
      | false =>
          simp [filterNoneL, hx, noNoneWithinL, isNone_filterNone,
            noNoneWithin_filterNone x, noNoneWithinL_filterNoneL xs]

theorem noNoneWithinD_filterNoneD : ∀ d : PyDict, noNoneWithinD (filterNoneD d) = true
  | .dnil => rfl
  | .dcons _ v d => by
      cases hv : v.isNone with
      | true => simp [filterNoneD, hv, noNoneWithinD_filterNoneD d]
      | false =>
          simp [filterNoneD, hv, noNoneWithinD, isNone_filterNone,
            noNoneWithin_filterNone v, noNoneWithinD_filterNoneD d]

end

mutual

theorem filterNone_eq_self : ∀ v : PyVal, noNoneWithin v = true → filterNone v = v
  | .vNone, _ => rfl
  | .vBool _, _ => rfl
  | .vInt _, _ => rfl
  | .vStr _, _ => rfl
  | .vList xs, h => by
      simp only [filterNone, filterNoneL_eq_self xs h]
  | .vDict d, h => by
      simp only [filterNone, filterNoneD_eq_self d h]

theorem filterNoneL_eq_self : ∀ xs : PyList, noNoneWithinL xs = true → filterNoneL xs = xs
  | .nil, _ => rfl
  | .cons x xs, h => by
      simp only [noNoneWithinL, Bool.and_eq_true, Bool.not_eq_true'] at h
      obtain ⟨⟨h1, h2⟩, h3⟩ := h
      simp [filterNoneL, h1, filterNone_eq_self x h2, filterNoneL_eq_self xs h3]

theorem filterNoneD_eq_self : ∀ d : PyDict, noNoneWithinD d = true → filterNoneD d = d
  | .dnil, _ => rfl
  | .dcons k v d, h => by
      simp only [noNoneWithinD, Bool.and_eq_true, Bool.not_eq_true'] at h
      obtain ⟨⟨h1, h2⟩, h3⟩ := h
      simp [filterNoneD, h1, filterNone_eq_self v h2, filterNoneD_eq_self d h3]

end

theorem entries_filterNoneD : ∀ d : PyDict,
    (filterNoneD d).entries =
      (d.entries.filter (fun kv => !kv.2.isNone)).map (fun kv => (kv.1, filterNone kv.2))
  | .dnil => rfl
  | .dcons k v d => by
      cases hv : v.isNone with
      | true => simp [filterNoneD, hv, PyDict.entries, List.filter, entries_filterNoneD d]
      | false => simp [filterNoneD, hv, PyDict.entries, List.filter, entries_filterNoneD d]

theorem elems_filterNoneL : ∀ xs : PyList,
    (filterNoneL xs).elems = (xs.elems.filter (fun x => !x.isNone)).map filterNone
  | .nil => rfl
  | .cons x xs => by
      cases hx : x.isNone with
      | true => simp [filterNoneL, hx, PyList.elems, List.filter, elems_filterNoneL xs]
      | false => simp [filterNoneL, hx, PyList.elems, List.filter, elems_filterNoneL xs]

theorem dictKeys_filterNoneD : ∀ d : PyDict, dictKeys (filterNoneD d) = nonNoneKeys d
  | .dnil => rfl
  | .dcons k v d => by
      cases hv : v.isNone with
      | true => simp [filterNoneD, nonNoneKeys, hv, dictKeys_filterNoneD d]
      | false => simp [filterNoneD, nonNoneKeys, hv, dictKeys, dictKeys_filterNoneD d]

theorem nonNoneKeys_sublist : ∀ d : PyDict, (nonNoneKeys d).Sublist (dictKeys d)
  | .dnil => List.Sublist.slnil
  | .dcons k v d => by
      cases hv : v.isNone with
      | true => simpa [nonNoneKeys, dictKeys, hv] using (nonNoneKeys_sublist d).cons k
      | false => simpa [nonNoneKeys, dictKeys, hv] using (nonNoneKeys_sublist d).cons₂ k

theorem mem_entries_not_isNone : ∀ d : PyDict, noNoneWithinD d = true →
    ∀ kv ∈ d.entries, kv.2.isNone = false
  | .dnil, _, _, h => by cases h
  | .dcons k v d, h, kv, hm => by
      simp only [noNoneWithinD, Bool.and_eq_true, Bool.not_eq_true'] at h
      simp only [PyDict.entries, List.mem_cons] at hm
      rcases hm with rfl | hm
      · exact h.1.1
      · exact mem_entries_not_isNone d h.2 kv hm

theorem listLoop_eq : ∀ (ps : List Page) (acc : List PyVal),
    listLoop ps acc = acc ++ (ps.map pageSummaries).flatten
  | [], acc => by simp [listLoop]
  | p :: ps, acc => by
      simp [listLoop, listLoop_eq ps, List.append_assoc]

/-! ## Claim theorems -/

/-- C1: every operation converts a `ClientError` raised by its external API
call into its declared soft-failure value — `[]` for list, `None` for get,
`{"error": str(e)}` for create and update, an `"Error: ..."` string for
export, `False` for delete — and never propagates it (the operations are
total functions of the backend outcome). -/
theorem c1_soft_failure_boundary (e : ClientError) (gid label : String)
    (a : CreateArgs) (u : UpdateArgs) (cb ub : PyDict → Except ClientError PyDict) :
    list_guardrails (.error e) = []
    ∧ get_guardrail (.error e) = .vNone
    ∧ (cb (createPayload a) = .error e →
        create_guardrail_full a cb = .dcons "error" (.vStr e) .dnil)
    ∧ (ub (updatePayload u) = .error e →
        update_guardrail_full u ub = .dcons "error" (.vStr e) .dnil)
    ∧ export_guardrail_to_terraform (.error e) gid label = "Error: " ++ e
    ∧ delete_guardrail (.error e) = false := by
  refine ⟨rfl, rfl, ?_, ?_, rfl, rfl⟩
  · intro h; simp [create_guardrail_full, h]
  · intro h; simp [update_guardrail_full, h]

/-- C1 witness: the soft-failure shapes at a concrete error and arguments. -/
theorem c1_soft_failure_boundary_witness :
    create_guardrail_full exampleCreateArgs (fun _ => .error "boom") =
      .dcons "error" (.vStr "boom") .dnil
    ∧ delete_guardrail (.error "boom") = false :=
  ⟨(c1_soft_failure_boundary "boom" "g" "r" exampleCreateArgs
      ⟨"g", none, none, none, none, none, none, none, none, none, none, none, none⟩
      (fun _ => .error "boom") (fun _ => .error "boom")).2.2.1 rfl,
   (c1_soft_failure_boundary "boom" "g" "r" exampleCreateArgs
      ⟨"g", none, none, none, none, none, none, none, none, none, none, none, none⟩
      (fun _ => .error "boom") (fun _ => .error "boom")).2.2.2.2.2⟩

/-- C2: `_filter_none` removes exactly the dict entries and list elements
whose value is `None`, recursively (the output's entries/elements are the
non-`None` input ones, each filtered, in order); the output has no `None`
dict value or list element at any depth; the scalars `False`, `0` and `""`
pass through unchanged; and emptied dicts/lists are preserved as empty. -/
theorem c2_filter_none_exact :
    (∀ v : PyVal, noNoneWithin (filterNone v) = true)
    ∧ (∀ d : PyDict, (filterNoneD d).entries =
        (d.entries.filter (fun kv => !kv.2.isNone)).map (fun kv => (kv.1, filterNone kv.2)))
    ∧ (∀ xs : PyList, (filterNoneL xs).elems =
        (xs.elems.filter (fun x => !x.isNone)).map filterNone)
    ∧ (∀ b, filterNone (.vBool b) = .vBool b)
    ∧ filterNone (.vInt 0) = .vInt 0
    ∧ filterNone (.vStr "") = .vStr ""
    ∧ filterNone (.vDict .dnil) = .vDict .dnil
    ∧ filterNone (.vList .nil) = .vList .nil
    ∧ filterNone (.vDict (.dcons "a" (.vDict (.dcons "b" .vNone .dnil)) .dnil)) =
        .vDict (.dcons "a" (.vDict .dnil) .dnil) :=
  ⟨noNoneWithin_filterNone, entries_filterNoneD, elems_filterNoneL,
   fun _ => rfl, rfl, rfl, rfl, rfl, rfl⟩

/-- C3: the normalizer is idempotent: `_filter_none(_filter_none(M)) =
_filter_none(M)` for every value `M`. -/
theorem c3_filter_none_idempotent (v : PyVal) :
    filterNone (filterNone v) = filterNone v :=
  filterNone_eq_self _ (noNoneWithin_filterNone v)

/-- C5: `list_guardrails` consumes all pages and returns the in-order
concatenation of the per-page `guardrailSummaries` lists; in particular a
backend with pages of 2, 2 and 1 summaries yields the 5 summaries in order. -/
theorem c5_list_concatenates_pages :
    (∀ pages : List Page,
      list_guardrails (.ok pages) = (pages.map pageSummaries).flatten)
    ∧ list_guardrails (.ok examplePages) =
        [.vStr "s1", .vStr "s2", .vStr "s3", .vStr "s4", .vStr "s5"]
    ∧ (list_guardrails (.ok examplePages)).length = 5 :=
  ⟨fun pages => by simp [list_guardrails, listLoop_eq], rfl, rfl⟩

/-- C8: the normalizer only removes: at every mapping, the output keys are
exactly the input keys whose value is not `None`, in input insertion order
(a sublist of the input's keys) — never a new key. -/
theorem c8_filter_none_only_removes :
    (∀ d : PyDict, dictKeys (filterNoneD d) = nonNoneKeys d)
    ∧ (∀ d : PyDict, (nonNoneKeys d).Sublist (dictKeys d)) :=
  ⟨dictKeys_filterNoneD, nonNoneKeys_sublist⟩

/-- `(PyVal.vStr s)` is never the `None` sentinel. -/
theorem isNone_vStr (s : String) : (PyVal.vStr s).isNone = false := rfl

/-- Keys contributed by an optional string argument's payload entry. -/
theorem optStrEntryKeys (o : Option String) (k : String) (t : List String) :
    (if (optVal .vStr o).isNone = true then t else k :: t) =
      (if o.isSome = true then [k] else []) ++ t := by
  cases o <;> simp [optVal, PyVal.isNone]

/-- Keys contributed by an optional dict argument's payload entry. -/
theorem optDictEntryKeys (o : Option PyDict) (k : String) (t : List String) :
    (if (optVal .vDict o).isNone = true then t else k :: t) =
      (if o.isSome = true then [k] else []) ++ t := by
  cases o <;> simp [optVal, PyVal.isNone]

/-- Keys contributed by an optional list argument's payload entry. -/
theorem optListEntryKeys (o : Option PyList) (k : String) (t : List String) :
    (if (optVal .vList o).isNone = true then t else k :: t) =
      (if o.isSome = true then [k] else []) ++ t := by
  cases o <;> simp [optVal, PyVal.isNone]

/-- C4: for every successfully fetched, truthy guardrail, export returns the
header line `resource "awscc_bedrock_guardrail" "<label>" ` (label supplied
by the caller) followed by `json.dumps` (indent 2) of a dict with exactly
the top-level keys `Type` and `Properties`, where `Properties` is the
fetched configuration re-keyed by the fixed field table and
`_filter_none`-filtered. -/
theorem c4_export_block_format (resp : PyDict) (gid label : String)
    (h : pyTruthy (pyDictGet resp "guardrail") = true) :
    export_guardrail_to_terraform (.ok resp) gid label =
      "resource \"awscc_bedrock_guardrail\" \"" ++ label ++ "\" " ++
        jsonDumps (.vDict (tfProps (asDict (pyDictGet resp "guardrail")))) 0
    ∧ dictKeys (tfProps (asDict (pyDictGet resp "guardrail"))) = ["Type", "Properties"]
    ∧ pyDictGet (tfProps (asDict (pyDictGet resp "guardrail"))) "Properties" =
        .vDict (filterNoneD (tfInnerProps (asDict (pyDictGet resp "guardrail")))) := by
  refine ⟨?_, rfl, rfl⟩
  simp [export_guardrail_to_terraform, h, tfBlock]

/-- C4 witness: exporting the spec's example configuration produces exactly
the expected blob — `"Name": "g1"`, `"BlockedInputMessaging": "blocked-in"`
and `"BlockedOutputsMessaging": "blocked-out"` under `Properties`, and no
other policy key. -/
theorem c4_export_block_format_witness :
    pyTruthy (pyDictGet exampleResp1 "guardrail") = true
    ∧ export_guardrail_to_terraform (.ok exampleResp1) "gid-1" "bedrock_guardrail" =
        "resource \"awscc_bedrock_guardrail\" \"bedrock_guardrail\" \x7b\n  \"Type\": \"AWS::Bedrock::Guardrail\",\n  \"Properties\": \x7b\n    \"Name\": \"g1\",\n    \"BlockedInputMessaging\": \"blocked-in\",\n    \"BlockedOutputsMessaging\": \"blocked-out\"\n  \x7d\n\x7d" :=
  And.intro rfl
    (((c4_export_block_format exampleResp1 "gid-1" "bedrock_guardrail" rfl).1).trans (by rfl))

/-- C6: `get_guardrail` yields `None` for every backend failure (a
nonexistent identifier raises `ClientError` at the API, taking the same
branch as a transient failure), and on success yields exactly the
response's `guardrail` envelope value — in particular every field the
backend returned; a success without the envelope is indistinguishable from
a failure. -/
theorem c6_get_absent_or_envelope :
    (∀ e : ClientError, get_guardrail (.error e) = .vNone)
    ∧ (∀ (resp : PyDict) (g : PyVal), dictLookup resp "guardrail" = some g →
        get_guardrail (.ok resp) = g)
    ∧ (∀ (resp : PyDict) (e : ClientError), dictLookup resp "guardrail" = none →
        get_guardrail (.ok resp) = get_guardrail (.error e)) := by
  refine ⟨fun _ => rfl, ?_, ?_⟩
  · intro resp g h; simp [get_guardrail, pyDictGet, h]
  · intro resp e h; simp [get_guardrail, pyDictGet, h]

/-- C6 witness: the example response yields its envelope, and an
envelope-less success equals a failure. -/
theorem c6_get_absent_or_envelope_witness :
    get_guardrail (.ok exampleResp1) = .vDict exampleG1
    ∧ get_guardrail (.ok .dnil) = get_guardrail (.error "boom") :=
  ⟨c6_get_absent_or_envelope.2.1 exampleResp1 (.vDict exampleG1) rfl,
   c6_get_absent_or_envelope.2.2 .dnil "boom" rfl⟩

/-- C7: the create payload always contains the three required keys, and
contains an optional argument's key exactly when that argument was
supplied (`isSome`), in source order; no entry of the payload has a `None`
value. -/
theorem c7_create_payload_keys (a : CreateArgs) :
    dictKeys (createPayload a) =
      ["name", "blockedInputMessaging", "blockedOutputsMessaging"]
      ++ (if a.description.isSome then ["description"] else [])
      ++ (if a.content_policy_config.isSome then ["contentPolicyConfig"] else [])
      ++ (if a.contextual_grounding_policy_config.isSome then ["contextualGroundingPolicyConfig"] else [])
      ++ (if a.cross_region_config.isSome then ["crossRegionConfig"] else [])
      ++ (if a.kms_key_arn.isSome then ["kmsKeyId"] else [])
      ++ (if a.sensitive_information_policy_config.isSome then ["sensitiveInformationPolicyConfig"] else [])
      ++ (if a.tags.isSome then ["tags"] else [])
      ++ (if a.topic_policy_config.isSome then ["topicPolicyConfig"] else [])
      ++ (if a.word_policy_config.isSome then ["wordPolicyConfig"] else [])
    ∧ ∀ kv ∈ (createPayload a).entries, kv.2.isNone = false := by
  constructor
  · rw [createPayload, dictKeys_filterNoneD, rawCreatePayload]
    simp only [nonNoneKeys, isNone_vStr, Bool.false_eq_true, if_false,
      optStrEntryKeys, optDictEntryKeys, optListEntryKeys, List.append_assoc]
    simp
  · exact mem_entries_not_isNone _ (noNoneWithinD_filterNoneD _)

/-- C7 witness: the payload keys for arguments supplying only the required
fields and a description, and the non-`None`ness of the head entry. -/
theorem c7_create_payload_keys_witness :
    dictKeys (createPayload exampleCreateArgs) =
      ["name", "blockedInputMessaging", "blockedOutputsMessaging", "description"]
    ∧ (PyVal.vStr "gx").isNone = false :=
  ⟨(c7_create_payload_keys exampleCreateArgs).1,
   (c7_create_payload_keys exampleCreateArgs).2 ("name", .vStr "gx") (List.Mem.head _)⟩

/-- C9: the client construction kwargs always contain `region_name`
(falling back to `"us-east-1"`); the static key pair appears only when both
variables are truthy (if either is missing the kwargs are the region
alone); and the session token appears only when, in addition, it is itself
set and non-empty. -/
theorem c9_boto3_kwargs_shape (env : Env) :
    ("region_name", env.aws_region.getD "us-east-1") ∈ boto3_kwargs env
    ∧ ((env.aws_access_key_id = none ∨ env.aws_secret_access_key = none) →
        boto3_kwargs env = [("region_name", env.aws_region.getD "us-east-1")])
    ∧ (∀ v, ("aws_access_key_id", v) ∈ boto3_kwargs env →
        env.aws_access_key_id = some v ∧ truthyStr env.aws_access_key_id = true
          ∧ truthyStr env.aws_secret_access_key = true)
    ∧ (∀ v, ("aws_secret_access_key", v) ∈ boto3_kwargs env →
        env.aws_secret_access_key = some v ∧ truthyStr env.aws_access_key_id = true
          ∧ truthyStr env.aws_secret_access_key = true)
    ∧ (∀ v, ("aws_session_token", v) ∈ boto3_kwargs env →
        env.aws_session_token = some v ∧ truthyStr env.aws_session_token = true
          ∧ truthyStr env.aws_access_key_id = true
          ∧ truthyStr env.aws_secret_access_key = true) := by
  obtain ⟨ak, sk, tok, reg⟩ := env
  cases ak <;> cases sk <;> cases tok <;>
    refine ⟨?_, ?_, ?_, ?_, ?_⟩ <;>
    simp [boto3_kwargs, truthyStr] <;>
    split_ifs <;>
    simp_all

/-- C9 witness: with all four variables set non-empty, the region entry is
present and each forwarded credential traces back to the environment. -/
theorem c9_boto3_kwargs_shape_witness :
    ("region_name", "eu-west-1") ∈ boto3_kwargs envAllSet
    ∧ (envAllSet.aws_session_token = some "TOK"
        ∧ truthyStr envAllSet.aws_session_token = true
        ∧ truthyStr envAllSet.aws_access_key_id = true
        ∧ truthyStr envAllSet.aws_secret_access_key = true) :=
  ⟨(c9_boto3_kwargs_shape envAllSet).1,
   (c9_boto3_kwargs_shape envAllSet).2.2.2.2 "TOK" (by decide)⟩

/-- C10 counterexample: on a successful response whose `guardrail` field is
present but an empty dict — a response "lacking a non-empty guardrail
field" — `get_guardrail` returns that empty dict, not the absent marker
`None`, even though export does produce the not-found message. -/
theorem c10_counterexample :
    get_guardrail (.ok respEmptyGuardrail) ≠ .vNone
    ∧ export_guardrail_to_terraform (.ok respEmptyGuardrail) "gid-x" "r" =
        "No guardrail found for id gid-x" :=
  ⟨(fun h => nomatch h), rfl⟩

/-- C10 amended: `get_guardrail` returns `None` on success exactly when the
`guardrail` field is absent or itself `None` (a present-but-empty value is
returned as-is); export produces the `"No guardrail found for id <id>"`
message whenever the call succeeded and the field is falsy, while a
backend-raised error always yields the `"Error: ..."` string, which is
never the not-found message. -/
theorem c10_notfound_vs_error (resp : PyDict) (gid label : String) (e : ClientError) :
    (get_guardrail (.ok resp) = .vNone ↔
      (dictLookup resp "guardrail" = none ∨ dictLookup resp "guardrail" = some .vNone))
    ∧ (pyTruthy (pyDictGet resp "guardrail") = false →
        export_guardrail_to_terraform (.ok resp) gid label =
          "No guardrail found for id " ++ gid)
    ∧ export_guardrail_to_terraform (.error e) gid label = "Error: " ++ e
    ∧ export_guardrail_to_terraform (.error e) gid label ≠
        "No guardrail found for id " ++ gid := by
  refine ⟨?_, ?_, rfl, ?_⟩
  · cases h : dictLookup resp "guardrail" <;> simp [get_guardrail, pyDictGet, h]
  · intro h; simp [export_guardrail_to_terraform, h]
  · intro h
    have h1 : "Error: " ++ e = "No guardrail found for id " ++ gid := h
    have h2 := congrArg String.data h1
    simp [String.data_append] at h2

/-- C10 amended witness: a response with no `guardrail` field at all yields
the absent marker and the not-found message. -/
theorem c10_notfound_vs_error_witness :
    get_guardrail (.ok PyDict.dnil) = .vNone
    ∧ export_guardrail_to_terraform (.ok PyDict.dnil) "idz" "r" =
        "No guardrail found for id idz" :=
  ⟨(c10_notfound_vs_error .dnil "idz" "r" "err").1.mpr (Or.inl rfl),
   (c10_notfound_vs_error .dnil "idz" "r" "err").2.1 rfl⟩
